import Mathlib

/-!
Verification of `c/src/ml-api-inference-internal.c` (ML-API internal utility
functions for inference implementations): the tensor descriptor converter
between the public (`ml_tensors_info_s`) and the internal GStreamer
(`GstTensorsInfo`) representations, the model-file validator with framework
auto-detection, the subplugin-name registry, and the element availability
gate with its lazily loaded restriction list.

External collaborators (GLib, GStreamer, the nnstreamer plugin API, the
filesystem, the configuration store) are modelled as explicit parameters or,
where the spec fixes their contract, as definitions marked as modelled from
the spec.
-/

namespace MLApi

/-- Error codes returned by the functions in this file
(`ML_ERROR_NONE`, `ML_ERROR_INVALID_PARAMETER`, `ML_ERROR_NOT_SUPPORTED`,
`ML_ERROR_STREAMS_PIPE`). -/
inductive MlError where
  | none
  | invalidParameter
  | notSupported
  | streamsPipe
  deriving DecidableEq, Repr

/-- Public tensor element types (`ml_tensor_type_e`). -/
inductive MlTensorType where
  | int32
  | uint32
  | int16
  | uint16
  | int8
  | uint8
  | float64
  | float32
  | int64
  | uint64
  | unknown
  deriving DecidableEq, Repr

/-- Internal (GStreamer-side) tensor element types (`tensor_type`,
`_NNS_INT32` .. `_NNS_UINT64` plus the `_NNS_END` sentinel). -/
inductive NnsTensorType where
  | int32
  | uint32
  | int16
  | uint16
  | int8
  | uint8
  | float64
  | float32
  | int64
  | uint64
  | nnsEnd
  deriving DecidableEq, Repr

/-- The type `switch` inside `_ml_tensors_info_copy_from_gst`: internal type
tag to public type tag; the `default` branch yields `ML_TENSOR_TYPE_UNKNOWN`. -/
def mlTensorTypeFromGst : NnsTensorType → MlTensorType
  | .int32 => .int32
  | .uint32 => .uint32
  | .int16 => .int16
  | .uint16 => .uint16
  | .int8 => .int8
  | .uint8 => .uint8
  | .float64 => .float64
  | .float32 => .float32
  | .int64 => .int64
  | .uint64 => .uint64
  | .nnsEnd => .unknown

/-- The type `switch` inside `_ml_tensors_info_copy_from_ml`: public type tag
to internal type tag; the `default` branch yields `_NNS_END`. -/
def gstTensorTypeFromMl : MlTensorType → NnsTensorType
  | .int32 => .int32
  | .uint32 => .uint32
  | .int16 => .int16
  | .uint16 => .uint16
  | .int8 => .int8
  | .uint8 => .uint8
  | .float64 => .float64
  | .float32 => .float32
  | .int64 => .int64
  | .uint64 => .uint64
  | .unknown => .nnsEnd

/-- One entry of the public descriptor set (`ml_tensor_info_s`): optional
name, type tag, dimension array (a C array `dimension[ML_TENSOR_RANK_LIMIT]`,
modelled as a function on slot indices). -/
structure MlTensorInfo where
  name : Option String
  type : MlTensorType
  dimension : Nat → Nat

/-- One entry of the internal descriptor set (`GstTensorInfo`). -/
structure GstTensorInfo where
  name : Option String
  type : NnsTensorType
  dimension : Nat → Nat

/-- Public descriptor set (`ml_tensors_info_s`): count plus slot array. -/
structure MlTensorsInfo where
  num_tensors : Nat
  info : Nat → MlTensorInfo

/-- Internal descriptor set (`GstTensorsInfo`). -/
structure GstTensorsInfo where
  num_tensors : Nat
  info : Nat → GstTensorInfo

/-- Modelled from the spec: `_ml_tensors_info_initialize` lives in
`ml-api-common.c`, which is not part of the excerpted sources; the spec
(§4.2 step 1) says the destination set is reset/zero-initialized, so a slot
starts with no name, the `Unknown` type tag and all-zero dimensions. -/
def initMlTensorInfo : MlTensorInfo :=
  { name := Option.none, type := .unknown, dimension := fun _ => 0 }

/-- Modelled from the spec: `gst_tensors_info_init` belongs to the external
nnstreamer plugin API; the spec (§4.2 step 1) says the destination set is
reset/zero-initialized, so a slot starts with no name, the `_NNS_END`
sentinel type and all-zero dimensions. -/
def initGstTensorInfo : GstTensorInfo :=
  { name := Option.none, type := .nnsEnd, dimension := fun _ => 0 }

/-- `_ml_tensors_info_copy_from_gst`: copies tensor meta info from a gst
tensors info into a freshly initialized public set.  `mlL` is
`ML_TENSOR_RANK_LIMIT`, `nnsL` is `NNS_TENSOR_RANK_LIMIT`; the copy loop
runs for `j < MIN (mlL, nnsL)` and the padding loop fills the remaining
public slots `j < mlL` with `1`.  Slots at or beyond `num_tensors` keep
their initialized value; slot indices at or beyond `mlL` do not exist in
the C array and are rendered as `0`. -/
def _ml_tensors_info_copy_from_gst (mlL nnsL : Nat) (gst_info : GstTensorsInfo) :
    MlTensorsInfo :=
  let max_dim := min mlL nnsL
  { num_tensors := gst_info.num_tensors
    info := fun i =>
      if i < gst_info.num_tensors then
        { name := (gst_info.info i).name
          type := mlTensorTypeFromGst (gst_info.info i).type
          dimension := fun j =>
            if j < max_dim then (gst_info.info i).dimension j
            else if j < mlL then 1
            else 0 }
      else initMlTensorInfo }

/-- `_ml_tensors_info_copy_from_ml`: copies tensor meta info from a public
tensors info into a freshly initialized gst set.  The copy loop runs for
`j < MIN (mlL, nnsL)` and the padding loop fills the remaining internal
slots `j < nnsL` with `1`. -/
def _ml_tensors_info_copy_from_ml (mlL nnsL : Nat) (ml_info : MlTensorsInfo) :
    GstTensorsInfo :=
  let max_dim := min mlL nnsL
  { num_tensors := ml_info.num_tensors
    info := fun i =>
      if i < ml_info.num_tensors then
        { name := (ml_info.info i).name
          type := gstTensorTypeFromMl (ml_info.info i).type
          dimension := fun j =>
            if j < max_dim then (ml_info.info i).dimension j
            else if j < nnsL then 1
            else 0 }
      else initGstTensorInfo }

/-- Framework identifiers (`ml_nnfw_type_e`).  The first fifteen values are
consecutive (0..14); `snap` is the platform-gated tag (`ML_NNFW_TYPE_SNAP`),
intentionally absent from the general name table. -/
inductive MlNnfwType where
  | any
  | customFilter
  | tensorflowLite
  | tensorflow
  | nnfw
  | mvnc
  | openvino
  | vivante
  | edgeTpu
  | armnn
  | snpe
  | pytorch
  | nntrInf
  | vdAifw
  | trixEngine
  | snap
  deriving DecidableEq, Repr

/-- Hardware classes (`ml_nnfw_hw_e`); only `ML_NNFW_HW_ANY` is exercised by
the functions modelled here. -/
inductive MlNnfwHw where
  | any
  | auto
  | cpu
  | gpu
  | npu
  deriving DecidableEq, Repr

/-- The cast `(ml_nnfw_type_e) idx` applied to an index of the subplugin
name table: indices 0..14 are the enum values of the fifteen tabled
frameworks. -/
def mlNnfwTypeOfIndex : Nat → MlNnfwType
  | 0 => .any
  | 1 => .customFilter
  | 2 => .tensorflowLite
  | 3 => .tensorflow
  | 4 => .nnfw
  | 5 => .mvnc
  | 6 => .openvino
  | 7 => .vivante
  | 8 => .edgeTpu
  | 9 => .armnn
  | 10 => .snpe
  | 11 => .pytorch
  | 12 => .nntrInf
  | 13 => .vdAifw
  | 14 => .trixEngine
  | _ => .any

/-- `ml_nnfw_subplugin_name`: the canonical sub-plugin name for each defined
framework, indexed by enum value (the sub-plugin for Android, `snap`, is not
declared here). -/
def ml_nnfw_subplugin_name : List String :=
  ["any", "custom", "tensorflow-lite", "tensorflow", "nnfw", "movidius-ncsdk2",
   "openvino", "vivante", "edgetpu", "armnn", "snpe", "pytorch", "nntrainer",
   "vd_aifw", "trix-engine"]

/-- `g_ascii_strdown` on a single character: lower-cases ASCII `A`-`Z` only. -/
def asciiDownChar (c : Char) : Char :=
  if 'A' ≤ c ∧ c ≤ 'Z' then Char.ofNat (c.toNat + 32) else c

/-- `g_ascii_strdown` on a string. -/
def asciiDown (s : String) : String :=
  String.mk (s.toList.map asciiDownChar)

/-- `g_ascii_strcasecmp (a, b) == 0`: ASCII case-insensitive equality. -/
def gAsciiCaseEq (a b : String) : Bool :=
  asciiDown a = asciiDown b

/-- Modelled from the spec: `find_key_strv` is declared by the external
nnstreamer plugin API (`nnstreamer_plugin_api.h`) and its body is not part
of this repository's sources; the spec (§4.1) describes the registry lookup
as a case-sensitive search of the canonical table.  Returns the index of
the first exact match, or `none` for the C function's negative result. -/
def find_key_strv : List String → String → Option Nat
  | [], _ => Option.none
  | s :: rest, key =>
      if s = key then some 0
      else (find_key_strv rest key).map (· + 1)

/-- `_ml_get_nnfw_type_by_subplugin_name`: `NULL` yields `Any`; a hit in the
canonical table yields the framework at that index; on a miss, a name equal
to `"snap"` under ASCII case-insensitive comparison yields the
platform-gated SNAP id, and any other name yields `Any` (with a logged
warning in the C code). -/
def _ml_get_nnfw_type_by_subplugin_name (name : Option String) : MlNnfwType :=
  match name with
  | Option.none => .any
  | some n =>
      match find_key_strv ml_nnfw_subplugin_name n with
      | some idx => mlNnfwTypeOfIndex idx
      | Option.none =>
          if gAsciiCaseEq n "snap" then .snap else .any

/-- What `g_file_test` can observe about a path in the model validator:
a directory, a regular file, or neither. -/
inductive FileKind where
  | directory
  | regular
  | absent
  deriving DecidableEq, Repr

/-- `strrchr (s, '.')`: the suffix of the character list starting at the
last occurrence of `'.'` (the dot included), or `none` if there is no dot. -/
def lastDotSuffix : List Char → Option (List Char)
  | [] => Option.none
  | c :: cs =>
      match lastDotSuffix cs with
      | some r => some r
      | Option.none => if c = '.' then some (c :: cs) else Option.none

/-- The lower-cased extension of a model path as computed by the validator:
`g_ascii_strdown (strrchr (path, '.'), -1)`, or `none` when the path has no
dot at all. -/
def fileExtLower (p : String) : Option String :=
  (lastDotSuffix p.toList).map (fun cs => String.mk (cs.map asciiDownChar))

/-- `g_file_test (p, kind)` on a possibly-`NULL` path: a `NULL` path entry
never passes the test. -/
def gFileTest (fs : String → FileKind) (p : Option String) (k : FileKind) :
    Bool :=
  match p with
  | some s => decide (fs s = k)
  | Option.none => false

/-- `__ml_validate_model_file`: rejects an empty path set; if the first path
is a directory, reports `is_dir` and skips the per-file checks; otherwise
requires every path to be present and a regular file.  Returns the status
together with the `is_dir` out-parameter.  The filesystem is the explicit
parameter `fs`. -/
def __ml_validate_model_file (fs : String → FileKind)
    (model : List (Option String)) : MlError × Bool :=
  match model with
  | [] => (MlError.invalidParameter, false)
  | first :: _ =>
      if gFileTest fs first FileKind.directory then
        (MlError.none, true)
      else if model.all (fun e => gFileTest fs e FileKind.regular) then
        (MlError.none, false)
      else
        (MlError.invalidParameter, false)

/-- The body of `_ml_validate_model_file` up to (but not including) the
`done:` label: path checks, framework auto-detection (`detectName` is the
name returned by the external `gst_tensor_filter_detect_framework`), the
`Any`-adoption / directory / expected-framework decision chain, and the
per-framework extension validation.  `android` tells whether the build
target is Android (`__ANDROID__`).  Returns the status reached at `done:`
together with the value of the in/out `nnfw` parameter at that point. -/
def validateBeforeGate (fs : String → FileKind) (detectName : Option String)
    (android : Bool) (model : List (Option String)) (nnfw : MlNnfwType) :
    MlError × MlNnfwType :=
  let checked := __ml_validate_model_file fs model
  if checked.1 ≠ MlError.none then (checked.1, nnfw)
  else
    let is_dir := checked.2
    let detected := _ml_get_nnfw_type_by_subplugin_name detectName
    if nnfw = MlNnfwType.any then
      if detected = MlNnfwType.any then (MlError.invalidParameter, nnfw)
      else (MlError.none, detected)
    else if is_dir ∧ nnfw ≠ MlNnfwType.nnfw then
      (MlError.invalidParameter, nnfw)
    else if detected = nnfw then
      (MlError.none, nnfw)
    else
      -- Mismatched case: derive each path's lower-cased extension; a path
      -- without any dot aborts with invalid-parameter.
      if ¬ model.all (fun e => (e.bind fileExtLower).isSome) then
        (MlError.invalidParameter, nnfw)
      else
        let ext0 := ((model.head?.bind id).bind fileExtLower).getD ""
        match nnfw with
        | .nnfw => (MlError.none, nnfw)
        | .mvnc | .openvino | .edgeTpu => (MlError.notSupported, nnfw)
        | .vdAifw =>
            if ext0 ≠ ".nb" ∧ ext0 ≠ ".ncp" ∧ ext0 ≠ ".bin" then
              (MlError.invalidParameter, nnfw)
            else (MlError.none, nnfw)
        | .snap =>
            if ¬ android then (MlError.notSupported, nnfw)
            else (MlError.none, nnfw)
        | .armnn =>
            if ext0 ≠ ".caffemodel" ∧ ext0 ≠ ".tflite" ∧ ext0 ≠ ".pb" ∧
                ext0 ≠ ".prototxt" then
              (MlError.invalidParameter, nnfw)
            else (MlError.none, nnfw)
        | _ => (MlError.invalidParameter, nnfw)

/-- `_ml_validate_model_file`: the decision chain of `validateBeforeGate`
followed by the `done:` block — when the status is still success, the
resolved framework must be available (`_ml_nnfw_is_available (*nnfw,
ML_NNFW_HW_ANY)`, modelled by the oracle `avail`), otherwise the call fails
with `NotSupported`.  Returns the status and the final value of the in/out
`nnfw` parameter. -/
def _ml_validate_model_file (fs : String → FileKind) (detectName : Option String)
    (avail : MlNnfwType → MlNnfwHw → Bool) (android : Bool)
    (model : List (Option String)) (nnfw : MlNnfwType) :
    MlError × MlNnfwType :=
  let r := validateBeforeGate fs detectName android model nnfw
  if r.1 = MlError.none then
    if avail r.2 MlNnfwHw.any then (MlError.none, r.2)
    else (MlError.notSupported, r.2)
  else r

/-- `g_str_has_prefix (s, pre)`: whether `pre` is a prefix of `s`. -/
def gStrHasPre (s pre : String) : Bool :=
  pre.toList.isPrefixOf s.toList

/-- Whether a character is one of the `g_strsplit_set` delimiters
`" ,;"` used for the restricted-elements configuration value. -/
def isSplitDelim (c : Char) : Bool :=
  c == ' ' || c == ',' || c == ';'

/-- Accumulating worker for `gStrsplitSet`. -/
def gStrsplitSetAux : List Char → List Char → List String
  | [], acc => [String.mk acc.reverse]
  | c :: cs, acc =>
      if isSplitDelim c then String.mk acc.reverse :: gStrsplitSetAux cs []
      else gStrsplitSetAux cs (c :: acc)

/-- `g_strsplit_set (s, " ,;", -1)`: splits at every delimiter character,
keeping empty tokens between adjacent delimiters. -/
def gStrsplitSet (s : String) : List String :=
  gStrsplitSetAux s.toList []

/-- The external configuration read once by
`_ml_check_plugin_availability`: the boolean
`element-restriction/enable_element_restriction` and the optional string
`element-restriction/restricted_elements`. -/
structure RestrictCfg where
  enabled : Bool
  elementsValue : Option String

/-- The value of the static `restricted_elements` list after the one-time
lazy load: it is built (by splitting the configured string) only when
restriction is enabled and a `restricted_elements` value is present;
otherwise the static pointer stays `NULL`, modelled as `none`. -/
def loadedRestrictedElements (cfg : RestrictCfg) : Option (List String) :=
  if cfg.enabled then cfg.elementsValue.map gStrsplitSet else Option.none

/-- `_ml_check_plugin_availability`: `NULL` names are invalid; elements of
the first-party nnstreamer plugin family (plugin name starting with
`"nnstreamer"` and element name starting with `"tensor_"`) are always
allowed; otherwise, when a restriction list exists, an element name that
the list lookup misses is `NotSupported`, and everything else is allowed. -/
def _ml_check_plugin_availability (cfg : RestrictCfg)
    (plugin_name element_name : Option String) : MlError :=
  match plugin_name, element_name with
  | some p, some e =>
      if gStrHasPre p "nnstreamer" && gStrHasPre e "tensor_" then MlError.none
      else
        match loadedRestrictedElements cfg with
        | some lst =>
            if find_key_strv lst e = Option.none then MlError.notSupported
            else MlError.none
        | Option.none => MlError.none
  | _, _ => MlError.invalidParameter

/-- `ml_check_element_availability`: feature gate (`check_feature_state`,
modelled by `featureOk`), `NULL`-name check, GStreamer initialization
(`gstInitStatus` is the result of `_ml_initialize_gstreamer`), then the
element-factory lookup (`factoryFind` maps an element name to its owning
plugin name, `none` when the element does not exist).  The second component
is the value written into the `available` out-parameter (`none` when the
function returns before touching it). -/
def ml_check_element_availability (featureOk : Bool) (gstInitStatus : MlError)
    (factoryFind : String → Option String) (cfg : RestrictCfg)
    (element_name : Option String) : MlError × Option Bool :=
  if !featureOk then (MlError.notSupported, Option.none)
  else
    match element_name with
    | Option.none => (MlError.invalidParameter, Option.none)
    | some e =>
        if gstInitStatus ≠ MlError.none then (gstInitStatus, Option.none)
        else
          match factoryFind e with
          | some plugin_name =>
              if _ml_check_plugin_availability cfg (some plugin_name) (some e) =
                  MlError.none then
                (MlError.none, some true)
              else (MlError.none, some false)
          | Option.none => (MlError.none, some false)

/-- The ten (public, internal) type-tag pairs handled explicitly by both
conversion switches. -/
def knownTypePairs : List (MlTensorType × NnsTensorType) :=
  [(.int32, .int32), (.uint32, .uint32), (.int16, .int16), (.uint16, .uint16),
   (.int8, .int8), (.uint8, .uint8), (.float64, .float64), (.float32, .float32),
   (.int64, .int64), (.uint64, .uint64)]

/-- C1: round-trip of the tensor descriptor converter.  For every public
descriptor set whose tensors all have rank at most `min mlL nnsL` (their
dimension slots at indices `min mlL nnsL .. mlL - 1` hold the padding value
`1`), converting to the internal representation with
`_ml_tensors_info_copy_from_ml` and back with
`_ml_tensors_info_copy_from_gst` reproduces the set exactly: same tensor
count and, slot by slot, the same name (absence preserved as absence), the
same type tag and the same dimension values. -/
theorem c1_round_trip (mlL nnsL : Nat) (x : MlTensorsInfo)
    (hrank : ∀ i, i < x.num_tensors → ∀ j, min mlL nnsL ≤ j → j < mlL →
      (x.info i).dimension j = 1) :
    (_ml_tensors_info_copy_from_gst mlL nnsL
        (_ml_tensors_info_copy_from_ml mlL nnsL x)).num_tensors =
      x.num_tensors ∧
    ∀ i, i < x.num_tensors →
      ((_ml_tensors_info_copy_from_gst mlL nnsL
          (_ml_tensors_info_copy_from_ml mlL nnsL x)).info i).name =
        (x.info i).name ∧
      ((_ml_tensors_info_copy_from_gst mlL nnsL
          (_ml_tensors_info_copy_from_ml mlL nnsL x)).info i).type =
        (x.info i).type ∧
      ∀ j, j < mlL →
        ((_ml_tensors_info_copy_from_gst mlL nnsL
            (_ml_tensors_info_copy_from_ml mlL nnsL x)).info i).dimension j =
          (x.info i).dimension j := by
  constructor
  · rfl
  · intro i hi
    refine ⟨?_, ?_, ?_⟩
    · simp [_ml_tensors_info_copy_from_gst, _ml_tensors_info_copy_from_ml, hi]
    · have htype : ∀ t, mlTensorTypeFromGst (gstTensorTypeFromMl t) = t := by
        intro t; cases t <;> rfl
      simp [_ml_tensors_info_copy_from_gst, _ml_tensors_info_copy_from_ml, hi,
        htype]
    · intro j hj
      simp only [_ml_tensors_info_copy_from_gst, _ml_tensors_info_copy_from_ml,
        hi, if_true]
      by_cases hjm : j < min mlL nnsL
      · rw [if_pos hjm, if_pos hjm]
      · rw [if_neg hjm, if_pos hj]
        exact (hrank i hi j (not_lt.mp hjm) hj).symm

/-- A concrete public descriptor set with two tensors used to witness the
converter theorems: one named float32 tensor and one unnamed tensor of
unknown type. -/
def c1SampleInfo : MlTensorsInfo :=
  { num_tensors := 2
    info := fun i =>
      if i = 0 then
        { name := some "input0"
          type := .float32
          dimension := fun j => if j = 0 then 3 else if j = 1 then 224 else 1 }
      else if i = 1 then
        { name := Option.none
          type := .unknown
          dimension := fun j => if j < 4 then 2 else 0 }
      else initMlTensorInfo }

/-- Witness for C1 at rank limits 4/4 on `c1SampleInfo`. -/
theorem c1_round_trip_witness :
    (_ml_tensors_info_copy_from_gst 4 4
        (_ml_tensors_info_copy_from_ml 4 4 c1SampleInfo)).num_tensors =
      c1SampleInfo.num_tensors ∧
    ∀ i, i < c1SampleInfo.num_tensors →
      ((_ml_tensors_info_copy_from_gst 4 4
          (_ml_tensors_info_copy_from_ml 4 4 c1SampleInfo)).info i).name =
        (c1SampleInfo.info i).name ∧
      ((_ml_tensors_info_copy_from_gst 4 4
          (_ml_tensors_info_copy_from_ml 4 4 c1SampleInfo)).info i).type =
        (c1SampleInfo.info i).type ∧
      ∀ j, j < 4 →
        ((_ml_tensors_info_copy_from_gst 4 4
            (_ml_tensors_info_copy_from_ml 4 4 c1SampleInfo)).info i).dimension j =
          (c1SampleInfo.info i).dimension j :=
  c1_round_trip 4 4 c1SampleInfo (by intro i _ j hj1 hj2; omega)

/-- C2: dimension padding rule in both conversion directions.  For every
tensor slot `i` of the source set, the destination's dimension slots below
`min mlL nnsL` are copied from the source, and every remaining slot up to
the destination representation's own rank limit is set to `1`. -/
theorem c2_dimension_padding (mlL nnsL : Nat) (g : GstTensorsInfo)
    (m : MlTensorsInfo) (i : Nat) (hig : i < g.num_tensors)
    (him : i < m.num_tensors) :
    ((∀ j, j < min mlL nnsL →
        ((_ml_tensors_info_copy_from_gst mlL nnsL g).info i).dimension j =
          (g.info i).dimension j) ∧
     (∀ j, min mlL nnsL ≤ j → j < mlL →
        ((_ml_tensors_info_copy_from_gst mlL nnsL g).info i).dimension j = 1)) ∧
    ((∀ j, j < min mlL nnsL →
        ((_ml_tensors_info_copy_from_ml mlL nnsL m).info i).dimension j =
          (m.info i).dimension j) ∧
     (∀ j, min mlL nnsL ≤ j → j < nnsL →
        ((_ml_tensors_info_copy_from_ml mlL nnsL m).info i).dimension j = 1)) := by
  refine ⟨⟨?_, ?_⟩, ?_, ?_⟩
  · intro j hj
    simp only [_ml_tensors_info_copy_from_gst, hig, if_true]
    rw [if_pos hj]
  · intro j hj hj2
    simp only [_ml_tensors_info_copy_from_gst, hig, if_true]
    rw [if_neg (not_lt.mpr hj), if_pos hj2]
  · intro j hj
    simp only [_ml_tensors_info_copy_from_ml, him, if_true]
    rw [if_pos hj]
  · intro j hj hj2
    simp only [_ml_tensors_info_copy_from_ml, him, if_true]
    rw [if_neg (not_lt.mpr hj), if_pos hj2]

/-- A concrete internal descriptor set with one tensor of rank 2 (at rank
limit 6) used to witness the padding rule. -/
def c2SampleGst : GstTensorsInfo :=
  { num_tensors := 1
    info := fun i =>
      if i = 0 then
        { name := some "raw"
          type := .uint8
          dimension := fun j => if j = 0 then 640 else if j = 1 then 480 else 0 }
      else initGstTensorInfo }

/-- Witness for C2 at rank limits 4 (public) and 6 (internal) on
`c2SampleGst` and `c1SampleInfo`, slot 0. -/
theorem c2_dimension_padding_witness :
    ((∀ j, j < min 4 6 →
        ((_ml_tensors_info_copy_from_gst 4 6 c2SampleGst).info 0).dimension j =
          (c2SampleGst.info 0).dimension j) ∧
     (∀ j, min 4 6 ≤ j → j < 4 →
        ((_ml_tensors_info_copy_from_gst 4 6 c2SampleGst).info 0).dimension j = 1)) ∧
    ((∀ j, j < min 4 6 →
        ((_ml_tensors_info_copy_from_ml 4 6 c1SampleInfo).info 0).dimension j =
          (c1SampleInfo.info 0).dimension j) ∧
     (∀ j, min 4 6 ≤ j → j < 6 →
        ((_ml_tensors_info_copy_from_ml 4 6 c1SampleInfo).info 0).dimension j = 1)) :=
  c2_dimension_padding 4 6 c2SampleGst c1SampleInfo 0 (by decide) (by decide)

/-- C3: the type-tag mapping is total in both directions: each of the ten
known numeric tags maps to its exact counterpart, every internal tag outside
that set maps to the public `Unknown` tag, and every public tag outside that
set maps to the internal `_NNS_END` sentinel. -/
theorem c3_type_map_total :
    (∀ p ∈ knownTypePairs,
        mlTensorTypeFromGst p.2 = p.1 ∧ gstTensorTypeFromMl p.1 = p.2) ∧
    (∀ g : NnsTensorType, g ∉ knownTypePairs.map Prod.snd →
        mlTensorTypeFromGst g = MlTensorType.unknown) ∧
    (∀ m : MlTensorType, m ∉ knownTypePairs.map Prod.fst →
        gstTensorTypeFromMl m = NnsTensorType.nnsEnd) := by
  refine ⟨by decide, ?_, ?_⟩
  · intro g hg
    cases g <;> revert hg <;> decide
  · intro m hm
    cases m <;> revert hm <;> decide

/-- Witness for C3: the int32 pair maps exactly, and the two sentinels map
to `Unknown` and `_NNS_END`. -/
theorem c3_type_map_total_witness :
    (mlTensorTypeFromGst NnsTensorType.int32 = MlTensorType.int32 ∧
     gstTensorTypeFromMl MlTensorType.int32 = NnsTensorType.int32) ∧
    mlTensorTypeFromGst NnsTensorType.nnsEnd = MlTensorType.unknown ∧
    gstTensorTypeFromMl MlTensorType.unknown = NnsTensorType.nnsEnd :=
  ⟨c3_type_map_total.1 (MlTensorType.int32, NnsTensorType.int32) (by decide),
   c3_type_map_total.2.1 NnsTensorType.nnsEnd (by decide),
   c3_type_map_total.2.2 MlTensorType.unknown (by decide)⟩

/-- A key missing from a string list makes the case-sensitive lookup return
the negative (`none`) result. -/
theorem find_key_strv_eq_none_of_not_mem (l : List String) (key : String)
    (h : key ∉ l) : find_key_strv l key = Option.none := by
  induction l with
  | nil => rfl
  | cons a rest ih =>
      have h1 : a ≠ key := fun hh => h (hh ▸ List.mem_cons_self a rest)
      have h2 : key ∉ rest := fun hh => h (List.mem_cons_of_mem a hh)
      simp [find_key_strv, h1, ih h2]

/-- A sample filesystem for the validator witnesses: three regular model
files and one directory. -/
def sampleFs : String → FileKind := fun s =>
  if s = "model.tflite" ∨ s = "model.onnx" ∨ s = "model.bin" then
    FileKind.regular
  else if s = "modeldir" then FileKind.directory
  else FileKind.absent

/-- Availability oracle that reports every framework available. -/
def availAll : MlNnfwType → MlNnfwHw → Bool := fun _ _ => true

/-- Availability oracle that reports every framework unavailable. -/
def availNone : MlNnfwType → MlNnfwHw → Bool := fun _ _ => false

/-- C4 (amended): auto-adoption under `Any`.  When the path checks pass and
the requested framework is `Any`: if detection resolves to a known
framework, that framework is written back into the in/out parameter and the
call succeeds provided the detected framework is available (otherwise it
fails with `NotSupported`, the parameter still updated); if detection is
unresolvable the call fails with `InvalidParameter` and the parameter is
left unchanged. -/
theorem c4_any_adoption (fs : String → FileKind) (detectName : Option String)
    (avail : MlNnfwType → MlNnfwHw → Bool) (android : Bool)
    (model : List (Option String))
    (hpaths : (__ml_validate_model_file fs model).1 = MlError.none) :
    (_ml_get_nnfw_type_by_subplugin_name detectName ≠ MlNnfwType.any →
      _ml_validate_model_file fs detectName avail android model MlNnfwType.any =
        ((if avail (_ml_get_nnfw_type_by_subplugin_name detectName) MlNnfwHw.any
          then MlError.none else MlError.notSupported),
         _ml_get_nnfw_type_by_subplugin_name detectName)) ∧
    (_ml_get_nnfw_type_by_subplugin_name detectName = MlNnfwType.any →
      _ml_validate_model_file fs detectName avail android model MlNnfwType.any =
        (MlError.invalidParameter, MlNnfwType.any)) := by
  constructor
  · intro hdet
    simp only [_ml_validate_model_file, validateBeforeGate, hpaths]
    simp [hdet]
    split <;> rfl
  · intro hdet
    simp only [_ml_validate_model_file, validateBeforeGate, hpaths]
    simp [hdet]

/-- Counterexample to C4 as stated: with every framework unavailable, a
call with requested framework `Any` on an existing `model.tflite` resolves
detection to TensorFlow-Lite, yet the call does not succeed — it fails with
`NotSupported` (while still writing the detected framework back). -/
theorem c4_counterexample :
    (__ml_validate_model_file sampleFs [some "model.tflite"]).1 =
      MlError.none ∧
    _ml_get_nnfw_type_by_subplugin_name (some "tensorflow-lite") =
      MlNnfwType.tensorflowLite ∧
    _ml_validate_model_file sampleFs (some "tensorflow-lite") availNone false
        [some "model.tflite"] MlNnfwType.any =
      (MlError.notSupported, MlNnfwType.tensorflowLite) := by
  refine ⟨by decide, by decide, by decide⟩

/-- Witness for C4 (amended) on `sampleFs` with an all-available oracle. -/
theorem c4_any_adoption_witness :
    _ml_validate_model_file sampleFs (some "tensorflow-lite") availAll false
        [some "model.tflite"] MlNnfwType.any =
      ((if availAll (_ml_get_nnfw_type_by_subplugin_name
            (some "tensorflow-lite")) MlNnfwHw.any
        then MlError.none else MlError.notSupported),
       _ml_get_nnfw_type_by_subplugin_name (some "tensorflow-lite")) :=
  (c4_any_adoption sampleFs (some "tensorflow-lite") availAll false
      [some "model.tflite"] (by decide)).1 (by decide)

/-- C5: directory exclusivity.  When the requested framework is neither
`Any` nor NNFW and the first path is an existing directory, validation
fails with `InvalidParameter` regardless of the remaining paths, the
detection result, the build target and the availability oracle. -/
theorem c5_directory_exclusivity (fs : String → FileKind)
    (detectName : Option String) (avail : MlNnfwType → MlNnfwHw → Bool)
    (android : Bool) (rest : List (Option String)) (p : String)
    (nnfw : MlNnfwType) (hdir : fs p = FileKind.directory)
    (hany : nnfw ≠ MlNnfwType.any) (hnnfw : nnfw ≠ MlNnfwType.nnfw) :
    (_ml_validate_model_file fs detectName avail android (some p :: rest)
        nnfw).1 = MlError.invalidParameter := by
  simp [_ml_validate_model_file, validateBeforeGate, __ml_validate_model_file,
    gFileTest, hdir, hany, hnnfw]

/-- Witness for C5: a directory model with requested framework
TensorFlow-Lite. -/
theorem c5_directory_exclusivity_witness :
    (_ml_validate_model_file sampleFs Option.none availAll false
        [some "modeldir"] MlNnfwType.tensorflowLite).1 =
      MlError.invalidParameter :=
  c5_directory_exclusivity sampleFs Option.none availAll false []
    "modeldir" MlNnfwType.tensorflowLite (by decide) (by decide) (by decide)

/-- C6 (amended): the final availability gate.  When the validation steps
before the `done:` label succeed and the resolved framework is not
available (the availability query with hardware `Any` returns false), the
call fails with `NotSupported`. -/
theorem c6_availability_gate (fs : String → FileKind)
    (detectName : Option String) (avail : MlNnfwType → MlNnfwHw → Bool)
    (android : Bool) (model : List (Option String)) (nnfw : MlNnfwType)
    (hpre : (validateBeforeGate fs detectName android model nnfw).1 =
      MlError.none)
    (hun : avail (validateBeforeGate fs detectName android model nnfw).2
      MlNnfwHw.any = false) :
    _ml_validate_model_file fs detectName avail android model nnfw =
      (MlError.notSupported,
       (validateBeforeGate fs detectName android model nnfw).2) := by
  simp [_ml_validate_model_file, hpre, hun]

/-- Counterexample to C6 as stated: with every framework unavailable, a
call with requested framework `VD_AIFW` on `model.onnx` fails with
`InvalidParameter` (the extension check fires first), not with
`NotSupported` — so the gate does not apply "regardless of the outcome of
the earlier validation steps". -/
theorem c6_counterexample :
    availNone (_ml_validate_model_file sampleFs Option.none availNone false
        [some "model.onnx"] MlNnfwType.vdAifw).2 MlNnfwHw.any = false ∧
    (_ml_validate_model_file sampleFs Option.none availNone false
        [some "model.onnx"] MlNnfwType.vdAifw).1 =
      MlError.invalidParameter ∧
    MlError.invalidParameter ≠ MlError.notSupported := by
  refine ⟨by decide, by decide, by decide⟩

/-- Witness for C6 (amended): detection matches the requested
TensorFlow-Lite framework, the pre-gate steps succeed, the framework is
unavailable, and the call fails with `NotSupported`. -/
theorem c6_availability_gate_witness :
    _ml_validate_model_file sampleFs (some "tensorflow-lite") availNone false
        [some "model.tflite"] MlNnfwType.tensorflowLite =
      (MlError.notSupported,
       (validateBeforeGate sampleFs (some "tensorflow-lite") false
          [some "model.tflite"] MlNnfwType.tensorflowLite).2) :=
  c6_availability_gate sampleFs (some "tensorflow-lite") availNone false
    [some "model.tflite"] MlNnfwType.tensorflowLite (by decide) (by decide)

/-- C7: the VD_AIFW extension gate.  When the validator reaches the
per-framework extension check (path checks passed on a regular file,
requested framework `VD_AIFW`, detection not `VD_AIFW`), a first path whose
lower-cased extension is not one of `.nb`, `.ncp`, `.bin` fails with
`InvalidParameter`, while a first path with extension `.bin` passes the
extension check and the call succeeds if and only if the framework is
available. -/
theorem c7_vd_aifw_extension_gate (fs : String → FileKind)
    (detectName : Option String) (avail : MlNnfwType → MlNnfwHw → Bool)
    (android : Bool) (p e : String) (hreg : fs p = FileKind.regular)
    (hdet : _ml_get_nnfw_type_by_subplugin_name detectName ≠ MlNnfwType.vdAifw)
    (hext : fileExtLower p = some e) :
    ((e ≠ ".nb" ∧ e ≠ ".ncp" ∧ e ≠ ".bin") →
      _ml_validate_model_file fs detectName avail android [some p]
          MlNnfwType.vdAifw =
        (MlError.invalidParameter, MlNnfwType.vdAifw)) ∧
    (e = ".bin" →
      _ml_validate_model_file fs detectName avail android [some p]
          MlNnfwType.vdAifw =
        ((if avail MlNnfwType.vdAifw MlNnfwHw.any then MlError.none
          else MlError.notSupported), MlNnfwType.vdAifw)) := by
  have hndir : fs p ≠ FileKind.directory := by rw [hreg]; decide
  constructor
  · intro he
    simp [_ml_validate_model_file, validateBeforeGate, __ml_validate_model_file,
      gFileTest, hreg, hndir, hdet, hext, he.1, he.2.1, he.2.2]
  · intro he
    simp [_ml_validate_model_file, validateBeforeGate, __ml_validate_model_file,
      gFileTest, hreg, hndir, hdet, hext, he]
    split <;> rfl

/-- Witness for C7: `model.onnx` is rejected with `InvalidParameter`,
`model.bin` passes the extension check and succeeds with the all-available
oracle. -/
theorem c7_vd_aifw_extension_gate_witness :
    _ml_validate_model_file sampleFs Option.none availAll false
        [some "model.onnx"] MlNnfwType.vdAifw =
      (MlError.invalidParameter, MlNnfwType.vdAifw) ∧
    _ml_validate_model_file sampleFs Option.none availAll false
        [some "model.bin"] MlNnfwType.vdAifw =
      ((if availAll MlNnfwType.vdAifw MlNnfwHw.any then MlError.none
        else MlError.notSupported), MlNnfwType.vdAifw) :=
  ⟨(c7_vd_aifw_extension_gate sampleFs Option.none availAll false
      "model.onnx" ".onnx" (by decide) (by decide) (by decide)).1
      ⟨by decide, by decide, by decide⟩,
   (c7_vd_aifw_extension_gate sampleFs Option.none availAll false
      "model.bin" ".bin" (by decide) (by decide) (by decide)).2 rfl⟩

/-- C8: name-to-id resolution.  Every entry of the canonical sub-plugin
name table resolves to the framework at its index; a name missing from the
table that equals `"snap"` under ASCII case-insensitive comparison resolves
to the platform-gated SNAP id; any other missing name resolves to `Any`
(the C code also logs a warning) — the function is total, never an error. -/
theorem c8_name_resolution :
    (∀ i : Fin ml_nnfw_subplugin_name.length,
        _ml_get_nnfw_type_by_subplugin_name
            (some (ml_nnfw_subplugin_name.get i)) = mlNnfwTypeOfIndex i.val) ∧
    (∀ name : String, name ∉ ml_nnfw_subplugin_name →
        gAsciiCaseEq name "snap" = true →
        _ml_get_nnfw_type_by_subplugin_name (some name) = MlNnfwType.snap) ∧
    (∀ name : String, name ∉ ml_nnfw_subplugin_name →
        gAsciiCaseEq name "snap" = false →
        _ml_get_nnfw_type_by_subplugin_name (some name) = MlNnfwType.any) := by
  refine ⟨by decide, ?_, ?_⟩ <;> intro name hmem hsnap <;>
    simp [_ml_get_nnfw_type_by_subplugin_name,
      find_key_strv_eq_none_of_not_mem _ _ hmem, hsnap]

/-- Witness for C8: `"tensorflow-lite"` resolves through the table,
`"SNAP"` resolves case-insensitively to the SNAP id, and
`"totally-unknown-name"` degrades to `Any`. -/
theorem c8_name_resolution_witness :
    _ml_get_nnfw_type_by_subplugin_name
        (some (ml_nnfw_subplugin_name.get ⟨2, by decide⟩)) =
      mlNnfwTypeOfIndex 2 ∧
    _ml_get_nnfw_type_by_subplugin_name (some "SNAP") = MlNnfwType.snap ∧
    _ml_get_nnfw_type_by_subplugin_name (some "totally-unknown-name") =
      MlNnfwType.any :=
  ⟨c8_name_resolution.1 ⟨2, by decide⟩,
   c8_name_resolution.2.1 "SNAP" (by decide) (by decide),
   c8_name_resolution.2.2 "totally-unknown-name" (by decide) (by decide)⟩

/-- C9: restriction exclusion is not an error at the public interface.
For every element name that resolves to an existing element owned by a
non-first-party plugin, when restriction is enabled with a configured
allow-list that does not contain the element name, the public call returns
the success status with the `available` out-flag set to `false`. -/
theorem c9_restriction_excluded_not_error
    (factoryFind : String → Option String) (cfg : RestrictCfg)
    (e p s : String) (hfind : factoryFind e = some p)
    (hnfp : gStrHasPre p "nnstreamer" = false)
    (hen : cfg.enabled = true) (hval : cfg.elementsValue = some s)
    (habs : e ∉ gStrsplitSet s) :
    ml_check_element_availability true MlError.none factoryFind cfg (some e) =
      (MlError.none, some false) := by
  simp [ml_check_element_availability, hfind, _ml_check_plugin_availability,
    hnfp, loadedRestrictedElements, hen, hval,
    find_key_strv_eq_none_of_not_mem _ _ habs]

/-- Element-factory oracle for the C9 witness: `third_party_x` exists and
is owned by a third-party plugin. -/
def c9Factory : String → Option String :=
  fun s => if s = "third_party_x" then some "thirdplugin" else Option.none

/-- Witness for C9: with restriction enabled and an allow-list
`"allowed_a,allowed_b"` that excludes `third_party_x`, the public call
returns success with `available = false`. -/
theorem c9_restriction_excluded_not_error_witness :
    ml_check_element_availability true MlError.none c9Factory
        { enabled := true, elementsValue := some "allowed_a,allowed_b" }
        (some "third_party_x") = (MlError.none, some false) :=
  c9_restriction_excluded_not_error c9Factory
    { enabled := true, elementsValue := some "allowed_a,allowed_b" }
    "third_party_x" "thirdplugin" "allowed_a,allowed_b"
    (by decide) (by decide) rfl rfl (by decide)

/-- C10: enabling restriction without supplying a `restricted_elements`
value leaves the static list pointer `NULL`, and
`_ml_check_plugin_availability` then allows every plugin/element name pair
rather than blocking everything. -/
theorem c10_enabled_without_list_allows_all (p e : String) :
    _ml_check_plugin_availability
        { enabled := true, elementsValue := Option.none }
        (some p) (some e) = MlError.none := by
  simp only [_ml_check_plugin_availability, loadedRestrictedElements]
  split <;> rfl

end MLApi
